import Mathlib

/-!
Verification development for the `is-thenable` package (`src/index.ts`).

The package exports one predicate:

```
export function isThenable<T = unknown>(value: unknown): value is Thenable<T> {
  if (value === null || value === undefined) { return false; }
  if (typeof value !== 'object' && typeof value !== 'function') { return false; }
  try {
    return typeof (value as Record<string, unknown>)['then'] === 'function';
  } catch {
    return false;
  }
}
export default isThenable;
```

We embed the fragment of the JavaScript value model that the function can
observe: the `typeof` classification of a value, and the outcome of a single
`[[Get]]` of the property named `"then"` on an object-like or callable value
(own data properties, accessor properties whose getter may throw, prototype
chain walking, revoked proxies, and primitive wrapper boxes).
-/

namespace IsThenable

/-- JavaScript numbers as far as this development needs them: `typeof` does not
inspect the numeric value, so we only record enough structure to name the
special values the spec calls out (NaN, the infinities, negative zero). -/
inductive JSNumber where
  | finite (n : Int)
  | nan
  | posInf
  | negInf
  | negZero
deriving DecidableEq, Repr

/-- Marks an object as a primitive wrapper box (`new Number(1)`, `new String("x")`,
`new Boolean(true)`). The internal boxed slot is invisible to `typeof` and to
property reads, so the tag carries no payload. -/
inductive BoxTag where
  | notBox
  | numberBox
  | stringBox
  | booleanBox
deriving DecidableEq, Repr

mutual

/-- A JavaScript runtime value, restricted to what `isThenable` can observe. -/
inductive JSValue where
  | vNull
  | vUndefined
  | vBool (b : Bool)
  | vNumber (n : JSNumber)
  | vString (s : String)
  | vSymbol (desc : String)
  | vBigInt (n : Int)
  | vObj (o : JSObj)

/-- An object-like value: `callable` is true for functions (`typeof` gives
`"function"`), `revoked` is true for a revoked Proxy (every property read
throws), `box` marks primitive wrapper objects, `own` is the own property
table, and `proto` is the prototype (delegation) link. -/
inductive JSObj where
  | mk (callable : Bool) (revoked : Bool) (box : BoxTag) (own : PropList) (proto : JSProto)

/-- The prototype slot of an object: either the null prototype or another object. -/
inductive JSProto where
  | nullProto
  | obj (o : JSObj)

/-- An association list of own properties. -/
inductive PropList where
  | nil
  | cons (name : String) (p : Property) (rest : PropList)

/-- A property on an object: a plain data property, an accessor whose getter
returns a value, or an accessor whose getter throws. -/
inductive Property where
  | dataProp (v : JSValue)
  | getterReturns (v : JSValue)
  | getterThrows

end

/-- Outcome of one property read: either a value or a thrown error. -/
inductive ReadResult where
  | ok (v : JSValue)
  | thrown

/-- The JavaScript `typeof` operator on our value model. -/
def typeofValue : JSValue → String
  | .vNull => "object"
  | .vUndefined => "undefined"
  | .vBool _ => "boolean"
  | .vNumber _ => "number"
  | .vString _ => "string"
  | .vSymbol _ => "symbol"
  | .vBigInt _ => "bigint"
  | .vObj (.mk callable _ _ _ _) => if callable then "function" else "object"

/-- Lookup of a name in an own-property table. -/
def PropList.find : PropList → String → Option Property
  | .nil, _ => none
  | .cons n p rest, key => if n = key then some p else rest.find key

mutual

/-- One `[[Get]]` on an object: a revoked proxy throws; otherwise an own data
property or getter answers, a throwing getter throws, and a missing own
property defers to the prototype chain. -/
def JSObj.getProp : JSObj → String → ReadResult
  | .mk _ revoked _ own proto, key =>
    if revoked then .thrown
    else
      match own.find key with
      | some (.dataProp v) => .ok v
      | some (.getterReturns v) => .ok v
      | some .getterThrows => .thrown
      | none => proto.getProp key

/-- Continuation of `[[Get]]` through the prototype slot: a null prototype
yields `undefined`, otherwise the walk continues on the prototype object. -/
def JSProto.getProp : JSProto → String → ReadResult
  | .nullProto, _ => .ok .vUndefined
  | .obj o, key => o.getProp key

end

/-- The guard `value === null || value === undefined` from the source. -/
def isNullish : JSValue → Bool
  | .vNull => true
  | .vUndefined => true
  | _ => false

/-- The expression `(value as Record<string, unknown>)['then']` as a single
observed read: on objects it is a `[[Get]]` of `"then"`; on `null`/`undefined`
it would throw; on other primitives auto-boxing yields `undefined`. The
source's guards make only the object case reachable. -/
def readThen : JSValue → ReadResult
  | .vNull => .thrown
  | .vUndefined => .thrown
  | .vObj o => o.getProp "then"
  | _ => .ok .vUndefined

/-- The embedding of `isThenable` from `src/index.ts`, clause by clause:
the nullish guard, the `typeof` primitive guard, and the guarded single read
of `then` whose thrown outcome is the source's `catch` branch. -/
def isThenable (value : JSValue) : Bool :=
  if isNullish value then
    false
  else if typeofValue value != "object" && typeofValue value != "function" then
    false
  else
    match readThen value with
    | .ok t => typeofValue t == "function"
    | .thrown => false

/-- The module's default export, `export default isThenable;`. -/
def defaultExport : JSValue → Bool := isThenable

/-- An observable effect of a call: the only effect the source can perform is
one read of a named property on the candidate value. -/
inductive Effect where
  | readProp (name : String)
deriving DecidableEq, Repr

/-- The same control flow as `isThenable`, instrumented with an explicit
effect trace and with the candidate value passed through as state: each
branch records the property reads it performs and returns the (never
written to) candidate. -/
def isThenableTraced (value : JSValue) : Bool × List Effect × JSValue :=
  if isNullish value then
    (false, [], value)
  else if typeofValue value != "object" && typeofValue value != "function" then
    (false, [], value)
  else
    match readThen value with
    | .ok t => (typeofValue t == "function", [.readProp "then"], value)
    | .thrown => (false, [.readProp "then"], value)

/-- Two sequential calls on the same candidate, the second call receiving the
candidate state left behind by the first. -/
def callTwice (v : JSValue) : Bool × Bool :=
  let r1 := isThenableTraced v
  let r2 := isThenableTraced r1.2.2
  (r1.1, r2.1)

/-- Classification of a single observed outcome of the `then` read, exactly as
the `try` body and `catch` of the source decide it. -/
def classifyObservation : ReadResult → Bool
  | .ok t => typeofValue t == "function"
  | .thrown => false

/-- Runtime category "object-like or callable": the values that pass both
guards of the source. -/
def isObjectOrFunction : JSValue → Bool
  | .vObj _ => true
  | _ => false

/-- Primitive values in the categories the spec lists: numeric, textual,
boolean, symbolic, arbitrary-precision integer. -/
def isPrimitive : JSValue → Bool
  | .vBool _ => true
  | .vNumber _ => true
  | .vString _ => true
  | .vSymbol _ => true
  | .vBigInt _ => true
  | _ => false

/-- An object-category box of a primitive (`new Number(...)` and the like). -/
def isBoxedPrimitive : JSValue → Bool
  | .vObj (.mk _ _ box _ _) => box != .notBox
  | _ => false


def sampleThenFn : JSValue := .vObj (.mk true false .notBox .nil .nullProto)

def sampleParent : JSObj := .mk false false .notBox (.cons "then" (.dataProp sampleThenFn) .nil) .nullProto

def sampleChild : JSValue := .vObj (.mk false false .notBox .nil (.obj sampleParent))

def sampleRevoked : JSValue := .vObj (.mk false true .notBox .nil .nullProto)

def sampleStrThen : JSValue := .vObj (.mk false false .notBox (.cons "then" (.dataProp (.vString "not a function")) .nil) .nullProto)

def sampleGetterObj : JSValue := .vObj (.mk false false .notBox (.cons "then" (.getterReturns sampleThenFn) .nil) .nullProto)

def sampleNumberBox : JSValue := .vObj (.mk false false .numberBox (.cons "then" (.dataProp sampleThenFn) .nil) .nullProto)

theorem isThenableTraced_state (v : JSValue) : (isThenableTraced v).2.2 = v := by
  unfold isThenableTraced
  split
  · rfl
  · split
    · rfl
    · split <;> rfl

theorem isThenableTraced_fst (v : JSValue) : (isThenableTraced v).1 = isThenable v := by
  unfold isThenableTraced isThenable
  split
  · rfl
  · split
    · rfl
    · split <;> rfl

/-- Claim C1: an object-like or callable value whose single read of `then`
succeeds with a callable member is classified thenable, whether the member is
own or inherited through the prototype chain. -/
theorem isThenable_true_of_callable_then (v t : JSValue)
    (hobj : isObjectOrFunction v = true)
    (hread : readThen v = .ok t)
    (hcall : typeofValue t = "function") :
    isThenable v = true := by
  cases v with
  | vObj o =>
    cases o with
    | mk callable revoked box own proto =>
      cases callable <;>
        simp_all [isThenable, isNullish, typeofValue, readThen]
  | vNull => simp [isObjectOrFunction] at hobj
  | vUndefined => simp [isObjectOrFunction] at hobj
  | vBool b => simp [isObjectOrFunction] at hobj
  | vNumber n => simp [isObjectOrFunction] at hobj
  | vString s => simp [isObjectOrFunction] at hobj
  | vSymbol d => simp [isObjectOrFunction] at hobj
  | vBigInt n => simp [isObjectOrFunction] at hobj

/-- Witness for C1: an object inheriting a callable `then` from its prototype. -/
theorem isThenable_true_of_callable_then_witness :
    isObjectOrFunction sampleChild = true ∧
    readThen sampleChild = .ok sampleThenFn ∧
    typeofValue sampleThenFn = "function" ∧
    isThenable sampleChild = true :=
  ⟨rfl, rfl, rfl, isThenable_true_of_callable_then sampleChild sampleThenFn rfl rfl rfl⟩

/-- Claim C2: if the read of `then` throws, the error is caught and the call
returns false; the function is total, so no error propagates. -/
theorem isThenable_false_of_read_thrown (v : JSValue)
    (h : readThen v = .thrown) :
    isThenable v = false := by
  unfold isThenable
  split
  · rfl
  · split
    · rfl
    · rw [h]

/-- Witness for C2: a revoked proxy, whose every property read throws. -/
theorem isThenable_false_of_read_thrown_witness :
    readThen sampleRevoked = .thrown ∧ isThenable sampleRevoked = false :=
  ⟨rfl, isThenable_false_of_read_thrown sampleRevoked rfl⟩


/-- Claim C3: an object-like or callable value whose `then` read succeeds with
a non-callable member is classified not thenable. -/
theorem isThenable_false_of_noncallable_then (v t : JSValue)
    (hobj : isObjectOrFunction v = true)
    (hread : readThen v = .ok t)
    (hnc : typeofValue t ≠ "function") :
    isThenable v = false := by
  cases v with
  | vObj o =>
    cases o with
    | mk callable revoked box own proto =>
      cases callable <;>
        simp_all [isThenable, isNullish, typeofValue, readThen]
  | vNull => simp [isObjectOrFunction] at hobj
  | vUndefined => simp [isObjectOrFunction] at hobj
  | vBool b => simp [isObjectOrFunction] at hobj
  | vNumber n => simp [isObjectOrFunction] at hobj
  | vString s => simp [isObjectOrFunction] at hobj
  | vSymbol d => simp [isObjectOrFunction] at hobj
  | vBigInt n => simp [isObjectOrFunction] at hobj

/-- Witness for C3: an object whose `then` is the string "not a function". -/
theorem isThenable_false_of_noncallable_then_witness :
    isObjectOrFunction sampleStrThen = true ∧
    readThen sampleStrThen = .ok (.vString "not a function") ∧
    typeofValue (JSValue.vString "not a function") ≠ "function" ∧
    isThenable sampleStrThen = false :=
  ⟨rfl, rfl, by decide,
    isThenable_false_of_noncallable_then sampleStrThen (.vString "not a function")
      rfl rfl (by decide)⟩

/-- Claim C4: on the null or undefined sentinel the function returns false
immediately, with an empty effect trace: no property access is attempted. -/
theorem isThenable_nullish_no_access (v : JSValue) (h : isNullish v = true) :
    isThenable v = false ∧ isThenableTraced v = (false, [], v) := by
  constructor
  · simp [isThenable, h]
  · simp [isThenableTraced, h]

/-- Witness for C4: both sentinels, null and undefined. -/
theorem isThenable_nullish_no_access_witness :
    (isThenable .vNull = false ∧ isThenableTraced .vNull = (false, [], .vNull)) ∧
    (isThenable .vUndefined = false ∧
      isThenableTraced .vUndefined = (false, [], .vUndefined)) :=
  ⟨isThenable_nullish_no_access .vNull rfl,
    isThenable_nullish_no_access .vUndefined rfl⟩

/-- Claim C5: on any primitive (numeric including NaN, the infinities and
negative zero, textual, boolean, symbolic, bigint) the function returns false
with an empty effect trace: no property access is attempted. -/
theorem isThenable_primitive_no_access (v : JSValue) (h : isPrimitive v = true) :
    isThenable v = false ∧ isThenableTraced v = (false, [], v) := by
  cases v <;>
    simp_all [isPrimitive, isThenable, isThenableTraced, isNullish, typeofValue]

/-- Witness for C5: the NaN number value. -/
theorem isThenable_primitive_no_access_witness :
    isPrimitive (.vNumber .nan) = true ∧
    (isThenable (.vNumber .nan) = false ∧
      isThenableTraced (.vNumber .nan) = (false, [], .vNumber .nan)) :=
  ⟨rfl, isThenable_primitive_no_access (.vNumber .nan) rfl⟩

/-- Claim C6: on an object-like or callable input the call performs exactly
one read of `then` and its boolean result is the classification of that single
observation. -/
theorem isThenable_single_read (v : JSValue)
    (hobj : isObjectOrFunction v = true) :
    (isThenableTraced v).2.1 = [.readProp "then"] ∧
    (isThenableTraced v).1 = classifyObservation (readThen v) := by
  cases v with
  | vObj o =>
    cases o with
    | mk callable revoked box own proto =>
      cases hr : readThen (.vObj (.mk callable revoked box own proto)) <;>
        cases callable <;>
          simp_all [isThenableTraced, isNullish, typeofValue, classifyObservation]
  | vNull => simp [isObjectOrFunction] at hobj
  | vUndefined => simp [isObjectOrFunction] at hobj
  | vBool b => simp [isObjectOrFunction] at hobj
  | vNumber n => simp [isObjectOrFunction] at hobj
  | vString s => simp [isObjectOrFunction] at hobj
  | vSymbol d => simp [isObjectOrFunction] at hobj
  | vBigInt n => simp [isObjectOrFunction] at hobj

/-- Witness for C6: an object whose `then` is served by a property-access
interceptor (a getter); the one observation yields a callable. -/
theorem isThenable_single_read_witness :
    isObjectOrFunction sampleGetterObj = true ∧
    ((isThenableTraced sampleGetterObj).2.1 = [.readProp "then"] ∧
      (isThenableTraced sampleGetterObj).1 =
        classifyObservation (readThen sampleGetterObj)) :=
  ⟨rfl, isThenable_single_read sampleGetterObj rfl⟩

/-- Claim C7: two sequential calls on the same unchanged candidate, the second
receiving the candidate state the first left behind, return the same boolean. -/
theorem isThenable_idempotent (v : JSValue) :
    (callTwice v).1 = (callTwice v).2 := by
  unfold callTwice
  simp [isThenableTraced_state]

/-- Claim C8: a call leaves the candidate unchanged, agrees with the pure
classification, and its only possible effect is the single read of `then`;
the result is a plain boolean carrying no part of the candidate. -/
theorem isThenable_frame (v : JSValue) :
    (isThenableTraced v).2.2 = v ∧
    (isThenableTraced v).1 = isThenable v ∧
    ∀ e ∈ (isThenableTraced v).2.1, e = .readProp "then" := by
  refine ⟨isThenableTraced_state v, isThenableTraced_fst v, ?_⟩
  unfold isThenableTraced
  split
  · simp
  · split
    · simp
    · split <;> simp

/-- Claim C9: a primitive wrapper box is object-like, not a primitive, so it
is classified solely by its `then` member: a box carrying a callable `then`
is thenable. -/
theorem isThenable_boxed_primitive (v t : JSValue)
    (hbox : isBoxedPrimitive v = true)
    (hread : readThen v = .ok t)
    (hcall : typeofValue t = "function") :
    isPrimitive v = false ∧ isThenable v = true := by
  cases v with
  | vObj o =>
    cases o with
    | mk callable revoked box own proto =>
      refine ⟨rfl, ?_⟩
      cases callable <;>
        simp_all [isThenable, isNullish, typeofValue, readThen]
  | vNull => simp [isBoxedPrimitive] at hbox
  | vUndefined => simp [isBoxedPrimitive] at hbox
  | vBool b => simp [isBoxedPrimitive] at hbox
  | vNumber n => simp [isBoxedPrimitive] at hbox
  | vString s => simp [isBoxedPrimitive] at hbox
  | vSymbol d => simp [isBoxedPrimitive] at hbox
  | vBigInt n => simp [isBoxedPrimitive] at hbox

/-- Witness for C9: a Number box whose own `then` is a function. -/
theorem isThenable_boxed_primitive_witness :
    isBoxedPrimitive sampleNumberBox = true ∧
    readThen sampleNumberBox = .ok sampleThenFn ∧
    typeofValue sampleThenFn = "function" ∧
    (isPrimitive sampleNumberBox = false ∧ isThenable sampleNumberBox = true) :=
  ⟨rfl, rfl, rfl,
    isThenable_boxed_primitive sampleNumberBox sampleThenFn rfl rfl rfl⟩

/-- Claim C10: the default export is the same function as the named export:
both return the same boolean on every input. -/
theorem defaultExport_eq_isThenable (v : JSValue) :
    defaultExport v = isThenable v := rfl

end IsThenable
